import Mathlib

/-!
Shallow embedding of the op-node configuration gate
(src/op-node/node/config.go): the configuration aggregate `Config`, its
validation `Config.Check`, the persisted-state reconciliation
`Config.LoadPersisted`, the metrics sub-check `MetricsConfig.Check`, the
data-availability-committee configuration `DACConfig` with its CLI reader
and client binding.

External collaborators (endpoint setups, rollup/pprof/p2p/alt-DA
sub-configurations, the persistence store) are Go interfaces or types from
other packages; each is modelled by the observations config.go makes of it:
the result of its own Check() call (an error or nil, modelled as
Option String), plus the few fields or methods config.go reads.
Logging calls (log.Warn / log.Info) are side effects with no influence on
any return value and are not modelled.
-/

/-- Modelled from the spec: the persisted sequencer run-state, one of
unset / started / stopped (the defining Go file is not part of the
source fragment; config.go references StateUnset and StateStopped). -/
inductive SequencerState where
  | StateUnset
  | StateStarted
  | StateStopped
deriving DecidableEq, BEq, Repr

/-- Result of an external Check() error call: some message or nil.
Models a Go endpoint-setup interface value (L1EndpointSetup,
L2EndpointSetup, L1BeaconEndpointSetup, SupervisorEndpointSetup,
oppprof.CLIConfig) by the one observation config.go makes of it. -/
structure SetupCheck where
  check : Option String
deriving DecidableEq

/-- Models p2p.SetupP2P by the observations config.go makes of it:
its Check() result and its Disabled() flag. -/
structure P2PSetup where
  check : Option String
  Disabled : Bool
deriving DecidableEq

/-- Modelled from the spec: driver.Config is external; config.go reads and
writes exactly SequencerEnabled and SequencerStopped. -/
structure DriverConfig where
  SequencerEnabled : Bool
  SequencerStopped : Bool
deriving DecidableEq

/-- Models rollup.Config by the observations config.go makes of it:
the nilable EcotoneTime and InteropTime upgrade timestamps, the result of
its own Check() call, and the result of its IsL2BlobTimeSet() call. -/
structure RollupConfig where
  EcotoneTime : Option Nat
  InteropTime : Option Nat
  checkErr : Option String
  IsL2BlobTimeSet : Bool
deriving DecidableEq

/-- Models altda.CLIConfig by the observations config.go makes of it:
its Enabled flag and the result of its own Check() call. -/
structure AltDAConfig where
  Enabled : Bool
  checkErr : Option String
deriving DecidableEq

/-- Models the ConfigPersistence store by its one read operation
SequencerState(), which returns a (state, error) pair. -/
structure ConfigPersistence where
  state : SequencerState
  err : Option String
deriving DecidableEq

/-- RPCConfig from config.go. ListenPort is a Go int. -/
structure RPCConfig where
  ListenAddr : String
  ListenPort : Int
  EnableAdmin : Bool
deriving DecidableEq

/-- HttpEndpoint from config.go: fmt.Sprintf("http://%s:%d", addr, port). -/
def RPCConfig.HttpEndpoint (cfg : RPCConfig) : String :=
  "http://" ++ cfg.ListenAddr ++ ":" ++ toString cfg.ListenPort

/-- MetricsConfig from config.go. -/
structure MetricsConfig where
  Enabled : Bool
  ListenAddr : String
  ListenPort : Int
deriving DecidableEq

/-- MetricsConfig.Check from config.go: nil when disabled; otherwise the
port must lie in [0, math.MaxUint16]. -/
def MetricsConfig.Check (m : MetricsConfig) : Option String :=
  if !m.Enabled then none
  else if m.ListenPort < 0 ∨ m.ListenPort > 65535 then
    some "invalid metrics port"
  else none

/-- DACConfig from config.go: the list of committee endpoint URLs. -/
structure DACConfig where
  URLS : List String
deriving DecidableEq

/-- ReadDACConfigFromCLI from config.go: a nil DACConfig when the flag
string is empty, otherwise the comma-split URL list. -/
def ReadDACConfigFromCLI (urls : String) : Option DACConfig :=
  if urls = "" then none
  else some { URLS := urls.splitOn "," }

/-- Client from config.go: nil when the receiver is nil or the URL list is
empty, otherwise client.New(URLS). The external client is modelled by the
URL list it is constructed from. -/
def DACConfig.Client (dacConfig : Option DACConfig) : Option (List String) :=
  match dacConfig with
  | none => none
  | some c => if c.URLS.length = 0 then none else some c.URLS

/-- The configuration aggregate (struct Config from config.go), restricted
to the fields read or written by Check and LoadPersisted, plus RPC.
Remaining fields (poll intervals, tracer, cancel handle, paths) are never
touched by either operation. -/
structure Config where
  L1 : SetupCheck
  L2 : SetupCheck
  Beacon : Option SetupCheck
  Supervisor : Option SetupCheck
  Driver : DriverConfig
  Rollup : RollupConfig
  RPC : RPCConfig
  Metrics : MetricsConfig
  Pprof : SetupCheck
  P2P : Option P2PSetup
  RollupHalt : String
  ConductorEnabled : Bool
  ConfigPersistence : ConfigPersistence
  AltDA : AltDAConfig
  DACConfig : Option DACConfig
deriving DecidableEq

/-- LoadPersisted from config.go. The Go method mutates the receiver, so
the embedding returns the resulting Config; a store read error is
returned as .error. -/
def Config.LoadPersisted (cfg : Config) : Except String Config :=
  if !cfg.Driver.SequencerEnabled then .ok cfg
  else
    match cfg.ConfigPersistence.err with
    | some e => .error e
    | none =>
      if cfg.ConfigPersistence.state ≠ SequencerState.StateUnset then
        .ok { cfg with Driver :=
          { cfg.Driver with
            SequencerStopped :=
              cfg.ConfigPersistence.state == SequencerState.StateStopped } }
      else .ok cfg

/-- Tail of Config.Check from config.go starting at the two DACConfig
conditions (lines 211-216). Every return point yields the error together
with the receiver as the Go method leaves it in memory. -/
def Config.checkFromDAC (cfg : Config) : Option String × Config :=
  if cfg.Driver.SequencerEnabled && cfg.Rollup.IsL2BlobTimeSet
      && cfg.DACConfig.isNone then
    (some "dac.urls must be set for sequencer when l2 blob time is set", cfg)
  else if (!cfg.Driver.SequencerEnabled || !cfg.Rollup.IsL2BlobTimeSet)
      && cfg.DACConfig.isSome then
    (some "dac.urls can only be set for sequencer when l2 blob time is set",
      cfg)
  else (none, cfg)

/-- Tail of Config.Check from the AltDA check (lines 205-210); the
log.Warn on AltDA.Enabled has no effect on the result. -/
def Config.checkFromAltDA (cfg : Config) : Option String × Config :=
  match cfg.AltDA.checkErr with
  | some e => (some ("altDA config error: " ++ e), cfg)
  | none => Config.checkFromDAC cfg

/-- Tail of Config.Check from the conductor block (lines 197-204). The Go
code reads the store with `state, _ :=`, discarding the error component
and testing only the state. -/
def Config.checkFromConductor (cfg : Config) : Option String × Config :=
  if cfg.ConductorEnabled then
    if cfg.ConfigPersistence.state ≠ SequencerState.StateUnset then
      (some "config persistence must be disabled when conductor is enabled",
        cfg)
    else if !cfg.Driver.SequencerEnabled then
      (some "sequencer must be enabled when conductor is enabled", cfg)
    else Config.checkFromAltDA cfg
  else Config.checkFromAltDA cfg

/-- Tail of Config.Check from the RollupHalt membership test
(lines 194-196); %q is modelled as surrounding quotes. -/
def Config.checkFromHalt (cfg : Config) : Option String × Config :=
  if ¬(cfg.RollupHalt = "" ∨ cfg.RollupHalt = "major"
      ∨ cfg.RollupHalt = "minor" ∨ cfg.RollupHalt = "patch") then
    (some ("invalid rollup halting option: \"" ++ cfg.RollupHalt ++ "\""),
      cfg)
  else Config.checkFromConductor cfg

/-- Tail of Config.Check from the P2P check (lines 189-193), which runs
only when cfg.P2P is non-nil. -/
def Config.checkFromP2P (cfg : Config) : Option String × Config :=
  match cfg.P2P with
  | some p =>
    match p.check with
    | some e => (some ("p2p config error: " ++ e), cfg)
    | none => Config.checkFromHalt cfg
  | none => Config.checkFromHalt cfg

/-- Tail of Config.Check from the Pprof check (lines 186-188). -/
def Config.checkFromPprof (cfg : Config) : Option String × Config :=
  match cfg.Pprof.check with
  | some e => (some ("pprof config error: " ++ e), cfg)
  | none => Config.checkFromP2P cfg

/-- Tail of Config.Check from the Metrics check (lines 183-185). -/
def Config.checkFromMetrics (cfg : Config) : Option String × Config :=
  match cfg.Metrics.Check with
  | some e => (some ("metrics config error: " ++ e), cfg)
  | none => Config.checkFromPprof cfg

/-- Tail of Config.Check from the Rollup check (lines 180-182). -/
def Config.checkFromRollup (cfg : Config) : Option String × Config :=
  match cfg.Rollup.checkErr with
  | some e => (some ("rollup config error: " ++ e), cfg)
  | none => Config.checkFromMetrics cfg

/-- Tail of Config.Check from the Interop/Supervisor block
(lines 172-179). -/
def Config.checkFromSupervisor (cfg : Config) : Option String × Config :=
  match cfg.Rollup.InteropTime with
  | none => Config.checkFromRollup cfg
  | some t =>
    match cfg.Supervisor with
    | none =>
      (some ("the Interop upgrade is scheduled (timestamp = " ++ toString t
        ++ ") but no supervisor RPC endpoint is configured"), cfg)
    | some s =>
      match s.check with
      | some e =>
        (some ("misconfigured supervisor RPC endpoint: " ++ e), cfg)
      | none => Config.checkFromRollup cfg

/-- Tail of Config.Check from the Ecotone/Beacon block (lines 164-171). -/
def Config.checkFromBeacon (cfg : Config) : Option String × Config :=
  match cfg.Rollup.EcotoneTime with
  | none => Config.checkFromSupervisor cfg
  | some t =>
    match cfg.Beacon with
    | none =>
      (some ("the Ecotone upgrade is scheduled (timestamp = " ++ toString t
        ++ ") but no L1 Beacon API endpoint is configured"), cfg)
    | some b =>
      match b.check with
      | some e =>
        (some ("misconfigured L1 Beacon API endpoint: " ++ e), cfg)
      | none => Config.checkFromSupervisor cfg

/-- Config.Check from config.go (lines 157-218): the full validation
sequence, starting with the L1 and L2 endpoint checks. Note the source
wraps an L1 failure with the literal text "l2 endpoint config error"
(line 159). The Go method never assigns to the receiver, so every return
point carries the receiver unchanged; the embedding returns the final
receiver state alongside the error. -/
def Config.Check (cfg : Config) : Option String × Config :=
  match cfg.L1.check with
  | some e => (some ("l2 endpoint config error: " ++ e), cfg)
  | none =>
    match cfg.L2.check with
    | some e => (some ("l2 endpoint config error: " ++ e), cfg)
    | none => Config.checkFromBeacon cfg

/-- P2PEnabled from config.go. -/
def Config.P2PEnabled (cfg : Config) : Bool :=
  match cfg.P2P with
  | none => false
  | some p => !p.Disabled

/-! ### Spec-side view of the validation order

The specification describes validation as a fixed ordered list of twelve
predicates, checked fail-fast: the result is the error of the earliest
violated predicate. The following definitions transcribe that list from
the spec; the correspondence with `Config.Check` is proved below. -/

/-- Spec step 3: data-blob upgrade scheduled implies consensus-data
endpoint present and itself valid. -/
def stepBeaconErr (cfg : Config) : Option String :=
  match cfg.Rollup.EcotoneTime with
  | none => none
  | some t =>
    match cfg.Beacon with
    | none =>
      some ("the Ecotone upgrade is scheduled (timestamp = " ++ toString t
        ++ ") but no L1 Beacon API endpoint is configured")
    | some b => (b.check).map (fun e => "misconfigured L1 Beacon API endpoint: " ++ e)

/-- Spec step 4: interop upgrade scheduled implies supervisor endpoint
present and itself valid. -/
def stepSupervisorErr (cfg : Config) : Option String :=
  match cfg.Rollup.InteropTime with
  | none => none
  | some t =>
    match cfg.Supervisor with
    | none =>
      some ("the Interop upgrade is scheduled (timestamp = " ++ toString t
        ++ ") but no supervisor RPC endpoint is configured")
    | some s => (s.check).map (fun e => "misconfigured supervisor RPC endpoint: " ++ e)

/-- Spec step 8: peer-network configuration check, only if present. -/
def stepP2PErr (cfg : Config) : Option String :=
  match cfg.P2P with
  | none => none
  | some p => (p.check).map (fun e => "p2p config error: " ++ e)

/-- Spec step 9: halt-severity threshold membership. -/
def stepHaltErr (cfg : Config) : Option String :=
  if ¬(cfg.RollupHalt = "" ∨ cfg.RollupHalt = "major"
      ∨ cfg.RollupHalt = "minor" ∨ cfg.RollupHalt = "patch") then
    some ("invalid rollup halting option: \"" ++ cfg.RollupHalt ++ "\"")
  else none

/-- Spec step 10: high-availability-coordination combination. -/
def stepConductorErr (cfg : Config) : Option String :=
  if cfg.ConductorEnabled then
    if cfg.ConfigPersistence.state ≠ SequencerState.StateUnset then
      some "config persistence must be disabled when conductor is enabled"
    else if !cfg.Driver.SequencerEnabled then
      some "sequencer must be enabled when conductor is enabled"
    else none
  else none

/-- Spec step 12: data-availability-committee biconditional. -/
def stepDACErr (cfg : Config) : Option String :=
  if cfg.Driver.SequencerEnabled && cfg.Rollup.IsL2BlobTimeSet
      && cfg.DACConfig.isNone then
    some "dac.urls must be set for sequencer when l2 blob time is set"
  else if (!cfg.Driver.SequencerEnabled || !cfg.Rollup.IsL2BlobTimeSet)
      && cfg.DACConfig.isSome then
    some "dac.urls can only be set for sequencer when l2 blob time is set"
  else none

/-- The ordered list of the twelve validation steps from the spec:
primary endpoint, secondary endpoint, consensus-data gate, supervisor
gate, upgrade-schedule check, metrics, profiling, peer network,
halt-severity membership, high-availability combination, alt-DA,
DAC biconditional. -/
def checkStepErrs (cfg : Config) : List (Option String) :=
  [ (cfg.L1.check).map (fun e => "l2 endpoint config error: " ++ e)
  , (cfg.L2.check).map (fun e => "l2 endpoint config error: " ++ e)
  , stepBeaconErr cfg
  , stepSupervisorErr cfg
  , (cfg.Rollup.checkErr).map (fun e => "rollup config error: " ++ e)
  , (cfg.Metrics.Check).map (fun e => "metrics config error: " ++ e)
  , (cfg.Pprof.check).map (fun e => "pprof config error: " ++ e)
  , stepP2PErr cfg
  , stepHaltErr cfg
  , stepConductorErr cfg
  , (cfg.AltDA.checkErr).map (fun e => "altDA config error: " ++ e)
  , stepDACErr cfg ]

/-- Spec-side fail-fast semantics: the error of the earliest violated
step, none when every step passes. -/
def firstStepErr (cfg : Config) : Option String :=
  (checkStepErrs cfg).findSome? id

/-! ### Correspondence between Config.Check and the spec-side step list -/

lemma checkFromDAC_fst (cfg : Config) :
    (Config.checkFromDAC cfg).1 = stepDACErr cfg := by
  unfold Config.checkFromDAC stepDACErr
  split <;> simp_all
  split <;> simp_all

lemma checkFromAltDA_fst (cfg : Config) :
    (Config.checkFromAltDA cfg).1 =
      ((cfg.AltDA.checkErr).map (fun e => "altDA config error: " ++ e)).orElse
        (fun _ => stepDACErr cfg) := by
  unfold Config.checkFromAltDA
  cases cfg.AltDA.checkErr <;> simp [Option.orElse, checkFromDAC_fst]

lemma checkFromConductor_fst (cfg : Config) :
    (Config.checkFromConductor cfg).1 =
      (stepConductorErr cfg).orElse
        (fun _ => (Config.checkFromAltDA cfg).1) := by
  unfold Config.checkFromConductor stepConductorErr
  split <;> [skip; simp [Option.orElse]]
  split <;> simp [Option.orElse]
  split <;> simp [Option.orElse]

lemma checkFromHalt_fst (cfg : Config) :
    (Config.checkFromHalt cfg).1 =
      (stepHaltErr cfg).orElse
        (fun _ => (Config.checkFromConductor cfg).1) := by
  unfold Config.checkFromHalt stepHaltErr
  split <;> simp [Option.orElse]

lemma checkFromP2P_fst (cfg : Config) :
    (Config.checkFromP2P cfg).1 =
      (stepP2PErr cfg).orElse (fun _ => (Config.checkFromHalt cfg).1) := by
  unfold Config.checkFromP2P stepP2PErr
  cases hp : cfg.P2P with
  | none => simp [Option.orElse]
  | some p => cases hc : p.check <;> simp [hc, Option.orElse]

lemma checkFromPprof_fst (cfg : Config) :
    (Config.checkFromPprof cfg).1 =
      ((cfg.Pprof.check).map (fun e => "pprof config error: " ++ e)).orElse
        (fun _ => (Config.checkFromP2P cfg).1) := by
  unfold Config.checkFromPprof
  cases cfg.Pprof.check <;> simp [Option.orElse]

lemma checkFromMetrics_fst (cfg : Config) :
    (Config.checkFromMetrics cfg).1 =
      ((cfg.Metrics.Check).map (fun e => "metrics config error: " ++ e)).orElse
        (fun _ => (Config.checkFromPprof cfg).1) := by
  unfold Config.checkFromMetrics
  cases cfg.Metrics.Check <;> simp [Option.orElse]

lemma checkFromRollup_fst (cfg : Config) :
    (Config.checkFromRollup cfg).1 =
      ((cfg.Rollup.checkErr).map (fun e => "rollup config error: " ++ e)).orElse
        (fun _ => (Config.checkFromMetrics cfg).1) := by
  unfold Config.checkFromRollup
  cases cfg.Rollup.checkErr <;> simp [Option.orElse]

lemma checkFromSupervisor_fst (cfg : Config) :
    (Config.checkFromSupervisor cfg).1 =
      (stepSupervisorErr cfg).orElse
        (fun _ => (Config.checkFromRollup cfg).1) := by
  unfold Config.checkFromSupervisor stepSupervisorErr
  cases cfg.Rollup.InteropTime with
  | none => simp [Option.orElse]
  | some t =>
    cases cfg.Supervisor with
    | none => simp [Option.orElse]
    | some s => cases hc : s.check <;> simp [hc, Option.orElse]

lemma checkFromBeacon_fst (cfg : Config) :
    (Config.checkFromBeacon cfg).1 =
      (stepBeaconErr cfg).orElse
        (fun _ => (Config.checkFromSupervisor cfg).1) := by
  unfold Config.checkFromBeacon stepBeaconErr
  cases cfg.Rollup.EcotoneTime with
  | none => simp [Option.orElse]
  | some t =>
    cases cfg.Beacon with
    | none => simp [Option.orElse]
    | some b => cases hc : b.check <;> simp [hc, Option.orElse]

/-- The code-side validation result equals the spec-side fail-fast fold of
the twelve ordered steps. -/
lemma check_fst_eq_firstStepErr (cfg : Config) :
    (Config.Check cfg).1 = firstStepErr cfg := by
  unfold Config.Check firstStepErr checkStepErrs
  cases h1 : cfg.L1.check with
  | some e => simp [List.findSome?]
  | none =>
    cases h2 : cfg.L2.check with
    | some e => simp [List.findSome?]
    | none =>
      simp only [List.findSome?, Option.map_none, id]
      rw [checkFromBeacon_fst, checkFromSupervisor_fst, checkFromRollup_fst,
        checkFromMetrics_fst, checkFromPprof_fst, checkFromP2P_fst,
        checkFromHalt_fst, checkFromConductor_fst, checkFromAltDA_fst]
      cases stepBeaconErr cfg <;> simp [Option.orElse]
      cases stepSupervisorErr cfg <;> simp [Option.orElse]
      cases cfg.Rollup.checkErr <;> simp [Option.orElse]
      cases cfg.Metrics.Check <;> simp [Option.orElse]
      cases cfg.Pprof.check <;> simp [Option.orElse]
      cases stepP2PErr cfg <;> simp [Option.orElse]
      cases stepHaltErr cfg <;> simp [Option.orElse]
      cases stepConductorErr cfg <;> simp [Option.orElse]
      cases cfg.AltDA.checkErr <;> simp [Option.orElse]
      cases stepDACErr cfg <;> simp [Option.orElse]

/-! ### The validation never writes the receiver -/

lemma checkFromDAC_snd (cfg : Config) :
    (Config.checkFromDAC cfg).2 = cfg := by
  unfold Config.checkFromDAC
  split
  · rfl
  · split <;> rfl

lemma checkFromAltDA_snd (cfg : Config) :
    (Config.checkFromAltDA cfg).2 = cfg := by
  unfold Config.checkFromAltDA
  cases hc : cfg.AltDA.checkErr <;> simp [hc, checkFromDAC_snd]

lemma checkFromConductor_snd (cfg : Config) :
    (Config.checkFromConductor cfg).2 = cfg := by
  unfold Config.checkFromConductor
  split
  · split
    · rfl
    · split
      · rfl
      · exact checkFromAltDA_snd cfg
  · exact checkFromAltDA_snd cfg

lemma checkFromHalt_snd (cfg : Config) :
    (Config.checkFromHalt cfg).2 = cfg := by
  unfold Config.checkFromHalt
  split
  · rfl
  · exact checkFromConductor_snd cfg

lemma checkFromP2P_snd (cfg : Config) :
    (Config.checkFromP2P cfg).2 = cfg := by
  unfold Config.checkFromP2P
  cases hp : cfg.P2P with
  | none => exact checkFromHalt_snd cfg
  | some p => cases hc : p.check <;> simp [hc, checkFromHalt_snd]

lemma checkFromPprof_snd (cfg : Config) :
    (Config.checkFromPprof cfg).2 = cfg := by
  unfold Config.checkFromPprof
  cases hc : cfg.Pprof.check <;> simp [hc, checkFromP2P_snd]

lemma checkFromMetrics_snd (cfg : Config) :
    (Config.checkFromMetrics cfg).2 = cfg := by
  unfold Config.checkFromMetrics
  cases hc : cfg.Metrics.Check <;> simp [hc, checkFromPprof_snd]

lemma checkFromRollup_snd (cfg : Config) :
    (Config.checkFromRollup cfg).2 = cfg := by
  unfold Config.checkFromRollup
  cases hc : cfg.Rollup.checkErr <;> simp [hc, checkFromMetrics_snd]

lemma checkFromSupervisor_snd (cfg : Config) :
    (Config.checkFromSupervisor cfg).2 = cfg := by
  unfold Config.checkFromSupervisor
  cases ht : cfg.Rollup.InteropTime with
  | none => exact checkFromRollup_snd cfg
  | some t =>
    cases hs : cfg.Supervisor with
    | none => rfl
    | some s => cases hc : s.check <;> simp [hc, checkFromRollup_snd]

lemma checkFromBeacon_snd (cfg : Config) :
    (Config.checkFromBeacon cfg).2 = cfg := by
  unfold Config.checkFromBeacon
  cases ht : cfg.Rollup.EcotoneTime with
  | none => exact checkFromSupervisor_snd cfg
  | some t =>
    cases hb : cfg.Beacon with
    | none => rfl
    | some b => cases hc : b.check <;> simp [hc, checkFromSupervisor_snd]

/-! ### Concrete configurations used as test inputs -/

/-- An endpoint-setup value whose own check passes. -/
def okSetup : SetupCheck := { check := none }

/-- A configuration on which every validation step passes: no upgrade is
scheduled, metrics and alt-DA and the conductor are disabled, sequencing
is disabled and no DAC config is given. -/
def baseConfig : Config where
  L1 := okSetup
  L2 := okSetup
  Beacon := none
  Supervisor := none
  Driver := { SequencerEnabled := false, SequencerStopped := false }
  Rollup :=
    { EcotoneTime := none, InteropTime := none, checkErr := none,
      IsL2BlobTimeSet := false }
  RPC := { ListenAddr := "127.0.0.1", ListenPort := 9545, EnableAdmin := false }
  Metrics := { Enabled := false, ListenAddr := "127.0.0.1", ListenPort := 7300 }
  Pprof := okSetup
  P2P := none
  RollupHalt := ""
  ConductorEnabled := false
  ConfigPersistence := { state := SequencerState.StateUnset, err := none }
  AltDA := { Enabled := false, checkErr := none }
  DACConfig := none

/-! ### Claims -/

/-- C1: for every configuration in which all validation checks other than
the data-availability-committee check pass, Config.Check succeeds iff
(Driver.SequencerEnabled AND the L2 blob time is set) has the same truth
value as (DACConfig is non-nil): an error results when both conjuncts
hold and DACConfig is nil, and when DACConfig is non-nil with at least
one conjunct false. -/
theorem claim_C1_dac_biconditional (cfg : Config)
    (h1 : cfg.L1.check = none) (h2 : cfg.L2.check = none)
    (h3 : stepBeaconErr cfg = none) (h4 : stepSupervisorErr cfg = none)
    (h5 : cfg.Rollup.checkErr = none) (h6 : cfg.Metrics.Check = none)
    (h7 : cfg.Pprof.check = none) (h8 : stepP2PErr cfg = none)
    (h9 : stepHaltErr cfg = none) (h10 : stepConductorErr cfg = none)
    (h11 : cfg.AltDA.checkErr = none) :
    (Config.Check cfg).1 = none ↔
      ((cfg.Driver.SequencerEnabled = true ∧ cfg.Rollup.IsL2BlobTimeSet = true)
        ↔ cfg.DACConfig.isSome = true) := by
  rw [check_fst_eq_firstStepErr]
  unfold firstStepErr checkStepErrs
  simp only [h1, h2, h3, h4, h5, h6, h7, h8, h9, h10, h11, Option.map_none,
    List.findSome?, id]
  unfold stepDACErr
  cases hd : cfg.DACConfig <;>
    cases hse : cfg.Driver.SequencerEnabled <;>
      cases hbl : cfg.Rollup.IsL2BlobTimeSet <;>
        simp [hd, hse, hbl]

/-- Concrete instance of C1: sequencing enabled, blob time set, DAC config
present, every other check passing. -/
def cfgC1w : Config :=
  { baseConfig with
    Driver := { SequencerEnabled := true, SequencerStopped := false }
    Rollup := { baseConfig.Rollup with IsL2BlobTimeSet := true }
    DACConfig := some { URLS := ["http://dac.example"] } }

/-- Witness for C1 at cfgC1w. -/
theorem claim_C1_dac_biconditional_witness :
    (Config.Check cfgC1w).1 = none ↔
      ((cfgC1w.Driver.SequencerEnabled = true
          ∧ cfgC1w.Rollup.IsL2BlobTimeSet = true)
        ↔ cfgC1w.DACConfig.isSome = true) :=
  claim_C1_dac_biconditional cfgC1w rfl rfl rfl rfl rfl rfl rfl rfl
    (by decide) rfl rfl

/-- C2: Config.Check implements fail-fast validation in the spec's fixed
order: its result is always the error of the earliest violated step
(firstStepErr, the first-some fold over the ordered twelve-step list);
in particular a configuration violating both the primary-endpoint check
and the metrics-port check reports only the primary-endpoint error. -/
theorem claim_C2_fail_fast (cfg : Config) :
    (Config.Check cfg).1 = firstStepErr cfg ∧
    (∀ e, cfg.L1.check = some e → (cfg.Metrics.Check).isSome = true →
      (Config.Check cfg).1 = some ("l2 endpoint config error: " ++ e)) := by
  refine ⟨check_fst_eq_firstStepErr cfg, ?_⟩
  intro e he _
  unfold Config.Check
  simp [he]

/-- Concrete instance of C2: an invalid primary endpoint together with an
out-of-range metrics port. -/
def cfgC2w : Config :=
  { baseConfig with
    L1 := { check := some "invalid L1 RPC endpoint" }
    Metrics := { Enabled := true, ListenAddr := "127.0.0.1",
                 ListenPort := 70000 } }

/-- Witness for C2 at cfgC2w: both the primary-endpoint and the
metrics-port check fail, and only the primary-endpoint error is
reported. -/
theorem claim_C2_fail_fast_witness :
    (Config.Check cfgC2w).1 =
      some ("l2 endpoint config error: " ++ "invalid L1 RPC endpoint") :=
  (claim_C2_fail_fast cfgC2w).2 "invalid L1 RPC endpoint" rfl (by decide)

/-- C6 evidence: the source wraps a primary (L1) endpoint failure with the
literal subsystem label "l2 endpoint config error" (config.go line 159),
the same label used for a secondary (L2) endpoint failure, so the two
failures are not reported under distinct subsystem names. -/
theorem claim_C6_wrap_label_collision :
    (Config.Check { baseConfig with
        L1 := { check := some "invalid endpoint" } }).1 =
      some "l2 endpoint config error: invalid endpoint" ∧
    (Config.Check { baseConfig with
        L2 := { check := some "invalid endpoint" } }).1 =
      some "l2 endpoint config error: invalid endpoint" := by
  constructor <;> decide

/-- C10: Config.Check never mutates the configuration aggregate: the
receiver it leaves behind equals the input configuration at every return
point, on success and on every error alike. -/
theorem claim_C10_check_readonly (cfg : Config) : (Config.Check cfg).2 = cfg := by
  unfold Config.Check
  cases h1 : cfg.L1.check with
  | some e => rfl
  | none =>
    cases h2 : cfg.L2.check with
    | some e => rfl
    | none => exact checkFromBeacon_snd cfg

/-- C3: with every check preceding the consensus-data step passing, if the
Ecotone timestamp is set then Config.Check fails at the beacon step
(returning that step's error) iff the Beacon endpoint is nil or its own
check fails; if the timestamp is unset, the validation result does not
depend on the Beacon endpoint at all, so validation never fails due to
its absence. -/
theorem claim_C3_beacon_gate (cfg : Config)
    (h1 : cfg.L1.check = none) (h2 : cfg.L2.check = none) :
    (∀ t, cfg.Rollup.EcotoneTime = some t →
      (((Config.Check cfg).1 = stepBeaconErr cfg ∧ stepBeaconErr cfg ≠ none) ↔
        (cfg.Beacon = none ∨ ∃ b, cfg.Beacon = some b ∧ b.check ≠ none)))
    ∧ (cfg.Rollup.EcotoneTime = none →
        ∀ b₁ b₂ : Option SetupCheck,
          (Config.Check { cfg with Beacon := b₁ }).1 =
            (Config.Check { cfg with Beacon := b₂ }).1) := by
  constructor
  · intro t ht
    have hchk : (Config.Check cfg).1 = (Config.checkFromBeacon cfg).1 := by
      unfold Config.Check
      simp [h1, h2]
    rw [hchk, checkFromBeacon_fst]
    unfold stepBeaconErr
    rw [ht]
    cases hb : cfg.Beacon with
    | none => simp [Option.orElse]
    | some b =>
      cases hc : b.check with
      | some e => simp [hc, Option.orElse]
      | none => simp [hc, Option.orElse]
  · intro ht b₁ b₂
    rw [check_fst_eq_firstStepErr, check_fst_eq_firstStepErr]
    unfold firstStepErr checkStepErrs stepBeaconErr stepSupervisorErr
      stepP2PErr stepHaltErr stepConductorErr stepDACErr
    simp [ht]

/-- Concrete instance of C3: Ecotone scheduled but no Beacon endpoint. -/
def cfgC3w : Config :=
  { baseConfig with
    Rollup := { baseConfig.Rollup with EcotoneTime := some 1708560000 } }

/-- Witness for C3 at cfgC3w. -/
theorem claim_C3_beacon_gate_witness :
    ((Config.Check cfgC3w).1 = stepBeaconErr cfgC3w
        ∧ stepBeaconErr cfgC3w ≠ none) ↔
      (cfgC3w.Beacon = none
        ∨ ∃ b, cfgC3w.Beacon = some b ∧ b.check ≠ none) :=
  (claim_C3_beacon_gate cfgC3w rfl rfl).1 1708560000 rfl

/-- C4: with every check preceding the high-availability (conductor) step
passing and ConductorEnabled true, Config.Check fails with the
persistence error when the persisted sequencer state is not unset, fails
with the sequencer error when sequencing is disabled, and the conductor
step passes when sequencing is enabled and the state is unset. -/
theorem claim_C4_conductor (cfg : Config)
    (h1 : cfg.L1.check = none) (h2 : cfg.L2.check = none)
    (h3 : stepBeaconErr cfg = none) (h4 : stepSupervisorErr cfg = none)
    (h5 : cfg.Rollup.checkErr = none) (h6 : cfg.Metrics.Check = none)
    (h7 : cfg.Pprof.check = none) (h8 : stepP2PErr cfg = none)
    (h9 : stepHaltErr cfg = none)
    (hc : cfg.ConductorEnabled = true) :
    (cfg.ConfigPersistence.state ≠ SequencerState.StateUnset →
      (Config.Check cfg).1 =
        some "config persistence must be disabled when conductor is enabled")
    ∧ (cfg.ConfigPersistence.state = SequencerState.StateUnset →
        cfg.Driver.SequencerEnabled = false →
        (Config.Check cfg).1 =
          some "sequencer must be enabled when conductor is enabled")
    ∧ (cfg.ConfigPersistence.state = SequencerState.StateUnset →
        cfg.Driver.SequencerEnabled = true →
        stepConductorErr cfg = none) := by
  have hfold := check_fst_eq_firstStepErr cfg
  unfold firstStepErr checkStepErrs at hfold
  simp only [h1, h2, h3, h4, h5, h6, h7, h8, h9, Option.map_none,
    List.findSome?, id] at hfold
  refine ⟨?_, ?_, ?_⟩
  · intro hst
    rw [hfold]
    unfold stepConductorErr
    simp [hc, hst]
  · intro hst hse
    rw [hfold]
    unfold stepConductorErr
    simp [hc, hst, hse]
  · intro hst hse
    unfold stepConductorErr
    simp [hc, hst, hse]

/-- Concrete instance of C4: conductor enabled while the store reports a
persisted (started) sequencer state. -/
def cfgC4w : Config :=
  { baseConfig with
    ConductorEnabled := true
    ConfigPersistence := { state := SequencerState.StateStarted, err := none } }

/-- Witness for C4 at cfgC4w. -/
theorem claim_C4_conductor_witness :
    (Config.Check cfgC4w).1 =
      some "config persistence must be disabled when conductor is enabled" :=
  (claim_C4_conductor cfgC4w rfl rfl rfl rfl rfl rfl rfl rfl (by decide)
      rfl).1 (by decide)

/-- Configuration refuting C5: the conductor is enabled, so Config.Check
reads the persisted sequencer state, and the store read returns an
error; yet validation succeeds, because line 198 of config.go discards
the error component of the read. -/
def cfgC5cex : Config :=
  { baseConfig with
    ConductorEnabled := true
    Driver := { SequencerEnabled := true, SequencerStopped := false }
    ConfigPersistence :=
      { state := SequencerState.StateUnset,
        err := some "persisted sequencer state unreadable" } }

/-- Counterexample to C5: on the read path inside Config.Check the store
error is swallowed, not propagated: the store read fails and Check still
returns success. -/
theorem claim_C5_counterexample :
    cfgC5cex.ConfigPersistence.err =
        some "persisted sequencer state unreadable"
      ∧ (Config.Check cfgC5cex).1 = none := by
  constructor <;> decide

/-- C5 as amended: LoadPersisted propagates a store read error unchanged
whenever it reads the store (sequencing enabled), while the conductor
gate inside Config.Check discards the error component of its store read
entirely — its result never depends on it. -/
theorem claim_C5_amended_store_error (cfg : Config) :
    (∀ e, cfg.Driver.SequencerEnabled = true →
      cfg.ConfigPersistence.err = some e →
      Config.LoadPersisted cfg = Except.error e)
    ∧ (∀ o : Option String,
        (Config.Check { cfg with ConfigPersistence :=
          { state := cfg.ConfigPersistence.state, err := o } }).1 =
          (Config.Check cfg).1) := by
  constructor
  · intro e hse herr
    unfold Config.LoadPersisted
    simp [hse, herr]
  · intro o
    rw [check_fst_eq_firstStepErr, check_fst_eq_firstStepErr]
    unfold firstStepErr checkStepErrs stepBeaconErr stepSupervisorErr
      stepP2PErr stepHaltErr stepConductorErr stepDACErr
    simp

/-- Concrete instance for C5 as amended: sequencing enabled and a failing
store read. -/
def cfgC5w : Config :=
  { baseConfig with
    Driver := { SequencerEnabled := true, SequencerStopped := false }
    ConfigPersistence :=
      { state := SequencerState.StateUnset, err := some "disk failure" } }

/-- Witness for the amended C5 at cfgC5w. -/
theorem claim_C5_amended_store_error_witness :
    Config.LoadPersisted cfgC5w = Except.error "disk failure" :=
  (claim_C5_amended_store_error cfgC5w).1 "disk failure" rfl rfl

/-- C7: LoadPersisted returns success immediately and leaves the
configuration unchanged when sequencing is disabled; when sequencing is
enabled and the store (without error) reports a non-unset state, it
overwrites Driver.SequencerStopped with (state == stopped), whatever the
caller supplied, and succeeds; when the store reports unset, no field
changes. -/
theorem claim_C7_load_persisted (cfg : Config) :
    (cfg.Driver.SequencerEnabled = false →
      Config.LoadPersisted cfg = Except.ok cfg)
    ∧ (cfg.Driver.SequencerEnabled = true →
        cfg.ConfigPersistence.err = none →
        cfg.ConfigPersistence.state ≠ SequencerState.StateUnset →
        Config.LoadPersisted cfg = Except.ok
          { cfg with Driver :=
            { cfg.Driver with SequencerStopped :=
                cfg.ConfigPersistence.state == SequencerState.StateStopped } })
    ∧ (cfg.Driver.SequencerEnabled = true →
        cfg.ConfigPersistence.err = none →
        cfg.ConfigPersistence.state = SequencerState.StateUnset →
        Config.LoadPersisted cfg = Except.ok cfg) := by
  refine ⟨?_, ?_, ?_⟩
  · intro hse
    unfold Config.LoadPersisted
    simp [hse]
  · intro hse herr hst
    unfold Config.LoadPersisted
    simp [hse, herr, hst]
  · intro hse herr hst
    unfold Config.LoadPersisted
    simp [hse, herr, hst]

/-- Concrete instance of C7: sequencing enabled, a persisted stopped
state, and a caller-supplied SequencerStopped = false. -/
def cfgC7w : Config :=
  { baseConfig with
    Driver := { SequencerEnabled := true, SequencerStopped := false }
    ConfigPersistence :=
      { state := SequencerState.StateStopped, err := none } }

/-- Witness for C7 at cfgC7w: the persisted stopped state overrides the
supplied flag. -/
theorem claim_C7_load_persisted_witness :
    Config.LoadPersisted cfgC7w = Except.ok
      { cfgC7w with Driver :=
        { cfgC7w.Driver with SequencerStopped :=
            cfgC7w.ConfigPersistence.state == SequencerState.StateStopped } } :=
  (claim_C7_load_persisted cfgC7w).2.1 rfl rfl (by decide)

/-- C8: reconciliation is idempotent: if LoadPersisted succeeds with a
resulting configuration, running it again on that result succeeds and
changes nothing — in particular Driver.SequencerStopped is the same
after each call. The store is a pure field of the configuration, so
consecutive reads return the same answer by construction. -/
theorem claim_C8_idempotent (cfg cfg2 : Config)
    (h : Config.LoadPersisted cfg = Except.ok cfg2) :
    Config.LoadPersisted cfg2 = Except.ok cfg2 := by
  obtain ⟨l1, l2, be, su, ⟨se, ss⟩, ro, rp, me, pp, p2, rh, ce, ⟨st, er⟩,
    ad, dc⟩ := cfg
  cases se
  · simp [Config.LoadPersisted] at h
    subst h
    simp [Config.LoadPersisted]
  · cases er
    · cases st <;> simp [Config.LoadPersisted] at h <;> subst h <;>
        simp [Config.LoadPersisted]
    · simp [Config.LoadPersisted] at h

/-- First-call input for the C8 witness. -/
def cfgC8a : Config :=
  { baseConfig with
    Driver := { SequencerEnabled := true, SequencerStopped := false }
    ConfigPersistence :=
      { state := SequencerState.StateStopped, err := none } }

/-- Result of the first LoadPersisted call on cfgC8a. -/
def cfgC8b : Config :=
  { cfgC8a with
    Driver := { SequencerEnabled := true, SequencerStopped := true } }

/-- Witness for C8: the second call on the first call's result is a
fixpoint. -/
theorem claim_C8_idempotent_witness :
    Config.LoadPersisted cfgC8b = Except.ok cfgC8b :=
  claim_C8_idempotent cfgC8a cfgC8b rfl

/-- Configuration refuting C9: sequencing enabled, blob time set, and a
present DACConfig whose URL list is empty; every validation step
passes. -/
def cfgC9cex : Config :=
  { baseConfig with
    Driver := { SequencerEnabled := true, SequencerStopped := false }
    Rollup := { baseConfig.Rollup with IsL2BlobTimeSet := true }
    DACConfig := some { URLS := [] } }

/-- Counterexample to C9: Config.Check succeeds although DACConfig is
present with an empty URL list. -/
theorem claim_C9_counterexample :
    cfgC9cex.DACConfig = some { URLS := [] }
      ∧ (Config.Check cfgC9cex).1 = none := by
  constructor <;> decide

/-- C9 as amended: Config.Check tests only the presence of DACConfig,
never the contents of its URL list — its verdict is unchanged under any
replacement of the list — and a present-but-empty DACConfig yields the
same absent client as a nil one. -/
theorem claim_C9_amended_presence_only (cfg : Config) (l : List String) :
    ((Config.Check { cfg with DACConfig := some { URLS := l } }).1 =
      (Config.Check { cfg with DACConfig := some { URLS := [] } }).1)
    ∧ DACConfig.Client (some { URLS := [] }) = DACConfig.Client none := by
  constructor
  · rw [check_fst_eq_firstStepErr, check_fst_eq_firstStepErr]
    unfold firstStepErr checkStepErrs stepBeaconErr stepSupervisorErr
      stepP2PErr stepHaltErr stepConductorErr stepDACErr
    simp
  · rfl
